import Mathlib

/-!
Verification of the framed-message relay and audio decode pipeline of an
ESP32 audio-streaming repository.  The definitions below are shallow
embeddings of:

* the `ADPCMDecoder` class of the websocket server (step-table decoder,
  `decodeSample`, `decode`, `reset`, and the static `processPacket`);
* the browser-side packet parser `processArrayBuffer` and the device-side
  packet builder in `microphoneTask` (8-byte header: magic, type,
  sequence number, sample count, checksum, then 16-bit samples);
* the relay routing of binary frames and text commands over the set of
  connected clients, and the ping/pong heartbeat sweep.

Machine integers are modelled as `Nat`/`Int` with explicit clamping or
`% 2^w` where the source wraps; buffers are `List Nat` of byte values;
fallible protocol operations return explicit sum types.
-/

namespace IOTAudio

/-! ## Definitions: ADPCM decoder (class `ADPCMDecoder`) -/

/-- The 89-entry ADPCM step size table (`this.stepTable`). -/
def stepTable : List Int :=
  [7, 8, 9, 10, 11, 12, 13, 14, 16, 17, 19, 21, 23, 25, 28, 31, 34, 37, 41,
   45, 50, 55, 60, 66, 73, 80, 88, 97, 107, 118, 130, 143, 157, 173, 190,
   209, 230, 253, 279, 307, 337, 371, 408, 449, 494, 544, 598, 658, 724, 796,
   876, 963, 1060, 1166, 1282, 1411, 1552, 1707, 1878, 2066, 2272, 2499,
   2749, 3024, 3327, 3660, 4026, 4428, 4871, 5358, 5894, 6484, 7132, 7845,
   8630, 9493, 10442, 11487, 12635, 13899, 15289, 16818, 18500, 20350, 22385,
   24623, 27086, 29794, 32767]

/-- The 16-entry ADPCM index adjustment table (`this.indexTable`). -/
def indexTable : List Int :=
  [-1, -1, -1, -1, 2, 4, 6, 8, -1, -1, -1, -1, 2, 4, 6, 8]

/-- Decoder state: `valprev` (previous output value) and `index`
(index into the step size table), as set by `reset()`. -/
structure DecoderState where
  valprev : Int
  index : Int
  deriving Repr, DecidableEq

/-- `reset()` zeroes both state fields; the constructor calls it. -/
def resetState : DecoderState := ⟨0, 0⟩

/-- `decodeSample(code)`: decode a single 4-bit ADPCM code, returning the
emitted 16-bit PCM sample together with the updated decoder state.
Mirrors the source: difference accumulation from the step size, sign from
bit 3, clamp of `valprev` to the 16-bit range, index table update and
clamp of `index` to `[0, 88]`. -/
def decodeSample (code : Nat) (s : DecoderState) : Int × DecoderState :=
  let step := stepTable.getD s.index.toNat 0
  let diff0 := step / 8
  let diff1 := if code &&& 4 ≠ 0 then diff0 + step else diff0
  let diff2 := if code &&& 2 ≠ 0 then diff1 + step / 2 else diff1
  let diff3 := if code &&& 1 ≠ 0 then diff2 + step / 4 else diff2
  let v0 := if code &&& 8 ≠ 0 then s.valprev - diff3 else s.valprev + diff3
  let v := max (-32768) (min 32767 v0)
  let i0 := s.index + indexTable.getD code 0
  let i := max 0 (min 88 i0)
  (v, ⟨v, i⟩)

/-- The loop body of `decode`: each input byte yields two 4-bit codes,
high nibble (`(byte >> 4) & 0x0f`) first, then low nibble (`byte & 0x0f`),
each decoded by `decodeSample`. -/
def decodeLoop (s : DecoderState) : List Nat → List Int × DecoderState
  | [] => ([], s)
  | b :: rest =>
    let r1 := decodeSample (b / 16 % 16) s
    let r2 := decodeSample (b % 16) r1.2
    let rr := decodeLoop r2.2 rest
    (r1.1 :: r2.1 :: rr.1, rr.2)

/-- `decode(adpcmData)` on a decoder whose current state is `s`: the
source calls `this.reset()` before the loop, so decoding always starts
from `resetState` whatever `s` is. -/
def ADPCMDecoder.decode (s : DecoderState) (bytes : List Nat) :
    List Int × DecoderState :=
  let _ := s
  decodeLoop resetState bytes

/-- The state invariant the spec claims: `index` stays in `[0, 88]` and
`valprev` stays in `[-32768, 32767]`. -/
def ValidState (s : DecoderState) : Prop :=
  0 ≤ s.index ∧ s.index ≤ 88 ∧ -32768 ≤ s.valprev ∧ s.valprev ≤ 32767

instance (s : DecoderState) : Decidable (ValidState s) := by
  unfold ValidState; infer_instance

/-! ## Definitions: wire format — browser parser `processArrayBuffer`
and the device-side packet builder of `microphoneTask` -/

/-- Magic byte identifying audio packets (`PACKET_HEADER_MAGIC`). -/
def PACKET_HEADER_MAGIC : Nat := 0xa5

/-- Audio packet type byte (`PACKET_TYPE_AUDIO`). -/
def PACKET_TYPE_AUDIO : Nat := 0x01

/-- Header size in bytes (`PACKET_HEADER_SIZE`). -/
def PACKET_HEADER_SIZE : Nat := 8

/-- Byte read at an offset; reads the source performs are guarded by its
length checks, so the default never matters on those paths. -/
def byteAt (buf : List Nat) (i : Nat) : Nat := buf.getD i 0

/-- `DataView.getUint16(i)` big-endian. -/
def getUint16BE (buf : List Nat) (i : Nat) : Nat :=
  256 * byteAt buf i + byteAt buf (i + 1)

/-- Reinterpret an unsigned 16-bit value as a signed 16-bit integer. -/
def toSigned16 (n : Nat) : Int :=
  if n % 65536 < 32768 then ((n % 65536 : Nat) : Int)
  else ((n % 65536 : Nat) : Int) - 65536

/-- `DataView.getInt16(i, false)` big-endian. -/
def getInt16BE (buf : List Nat) (i : Nat) : Int :=
  toSigned16 (getUint16BE buf i)

/-- Outcome of the `processArrayBuffer` promise: rejected with an error
message, or resolved with the decoded samples. `sequenceNumber` records
the header field the parser reads at offset 2. -/
inductive ParseOutcome where
  | rejected (msg : String)
  | resolved (sequenceNumber : Nat) (samples : List Int)
  deriving Repr, DecidableEq

/-- The browser-side parser `processArrayBuffer`.  Checks, in source
order: buffer length at least 8; magic byte and packet type; sample
count in `(0, 8192]`.  When the implied size `8 + 2*numSamples` exceeds
the buffer length the source logs a warning and then assigns to the
`const` binding `numSamples`, which throws a `TypeError`; the
surrounding catch resolves the promise with an empty `Int16Array`.
Otherwise the samples are read big-endian and the promise resolves with
them (the checksum comparison only logs and never rejects). -/
def processArrayBuffer (buf : List Nat) : ParseOutcome :=
  if buf.length < PACKET_HEADER_SIZE then
    ParseOutcome.rejected "Invalid buffer size"
  else if byteAt buf 0 ≠ PACKET_HEADER_MAGIC ∨
      byteAt buf 1 ≠ PACKET_TYPE_AUDIO then
    ParseOutcome.rejected "Unknown packet format"
  else
    let sequenceNumber := getUint16BE buf 2
    let numSamples := getUint16BE buf 4
    if numSamples = 0 ∨ numSamples > 8192 then
      ParseOutcome.rejected "Invalid sample count"
    else if buf.length < PACKET_HEADER_SIZE + numSamples * 2 then
      ParseOutcome.resolved sequenceNumber []
    else
      ParseOutcome.resolved sequenceNumber
        ((List.range numSamples).map fun i =>
          getInt16BE buf (PACKET_HEADER_SIZE + 2 * i))

/-- Unsigned 16-bit representation of a signed sample value, as stored
in memory by the device (`int16_t`). -/
def int16ToNat (v : Int) : Nat := (v % 65536).toNat

/-- The packet builder inside `microphoneTask`: magic and type bytes,
sequence number and sample count big-endian, checksum (the `uint16_t`
running sum of absolute sample values) big-endian, then the sample
buffer copied by `memcpy` — i.e. each `int16_t` in the device's native
little-endian byte order, low byte first. -/
def encodePacket (seq : Nat) (samples : List Int) : List Nat :=
  let n := samples.length
  let checksum := (samples.map Int.natAbs).sum % 65536
  [PACKET_HEADER_MAGIC, PACKET_TYPE_AUDIO,
   seq / 256 % 256, seq % 256,
   n / 256 % 256, n % 256,
   checksum / 256 % 256, checksum % 256] ++
  samples.flatMap fun v => [int16ToNat v % 256, int16ToNat v / 256]

/-- A truncated frame: valid magic/type, declared sample count 5
(implied size 18), but only 12 bytes on the wire carrying 2 samples. -/
def truncatedPacket : List Nat :=
  [0xa5, 0x01, 0, 0, 0, 5, 0, 3, 0, 1, 0, 2]

/-! ## Definitions: server-side parser variant
(`ADPCMDecoder.processPacket`) -/

/-- JavaScript `ToInt32` of a non-negative numeric value: reduce modulo
`2^32` and reinterpret as a signed 32-bit integer — the result of the
bitwise-or chain `data[1] | (data[2] << 8) | (data[3] << 16) |
(data[4] << 24)` for byte operands. -/
def toInt32 (n : Nat) : Int :=
  if n % 4294967296 < 2147483648 then ((n % 4294967296 : Nat) : Int)
  else ((n % 4294967296 : Nat) : Int) - 4294967296

/-- The declared payload size `dataSize` read by `processPacket`:
little-endian from bytes 1..4, through JavaScript int32 bitwise ops. -/
def declaredSize (data : List Nat) : Int :=
  toInt32 (byteAt data 1 + 256 * byteAt data 2 + 65536 * byteAt data 3 +
    16777216 * byteAt data 4)

/-- Index clamping of `TypedArray.prototype.subarray` (which implements
`Buffer.slice`): negative indices count from the end, everything is
clamped into `[0, length]`. -/
def clampIndex (n x : Int) : Int := if x < 0 then max (n + x) 0 else min x n

/-- `buffer.slice(s, e)` on a Node `Buffer` of bytes. -/
def jsSlice (l : List Nat) (s e : Int) : List Nat :=
  let n : Int := l.length
  let s1 := clampIndex n s
  let e1 := clampIndex n e
  (l.drop s1.toNat).take (e1 - s1).toNat

/-- Result of `ADPCMDecoder.processPacket`: a thrown error, or the
returned object `{type, format, size, data}`. -/
inductive PacketResult where
  | error (msg : String)
  | ok (ptype : Nat) (format : Nat) (size : Int) (data : List Nat)
  deriving Repr, DecidableEq

/-- `ADPCMDecoder.processPacket(data)`: throws on buffers shorter than 6
bytes and on packet type byte ≠ 1; otherwise returns the header fields
and `data.slice(6, 6 + dataSize)`.  There is no magic-byte check. -/
def processPacket (data : List Nat) : PacketResult :=
  if data.length < 6 then PacketResult.error "Invalid packet size"
  else if byteAt data 0 ≠ 1 then PacketResult.error "Not an audio packet"
  else PacketResult.ok (byteAt data 0) (byteAt data 5) (declaredSize data)
    (jsSlice data 6 (6 + declaredSize data))

/-- A 7-byte packet whose declared size has byte 4 = 0x80, i.e. the
unsigned little-endian u32 value `2^31`. -/
def oversizedPacket : List Nat := [1, 0, 0, 0, 128, 0, 7]

/-! ## Definitions: relay routing and commands -/

/-- One live websocket connection as the relay server sees it: the
`readyState === OPEN` flag and the classification flags `isESP32` and
`isBrowser` set by the connection and message handlers. `id` stands for
object identity of the socket. -/
structure Conn where
  id : Nat
  readyOpen : Bool
  isESP32 : Bool
  isBrowser : Bool
  deriving Repr, DecidableEq

/-- Producer role: a device connection (`isESP32`). -/
def Conn.isProducer (c : Conn) : Bool := c.isESP32

/-- Consumer role: a viewer connection (`isBrowser` and not a device). -/
def Conn.isConsumer (c : Conn) : Bool := c.isBrowser && !c.isESP32

/-- A connection not yet classified as either role. -/
def Conn.isUnclassified (c : Conn) : Bool := !c.isESP32 && !c.isBrowser

/-- Recipients of an inbound binary frame: the `ws.on("message")` binary
branch forwards the original frame to every client with
`client !== ws && client.readyState === OPEN && !client.isESP32`. -/
def forwardBinaryTargets (sender : Nat) (conns : List Conn) : List Nat :=
  (conns.filter fun c => c.id != sender && c.readyOpen && !c.isESP32).map
    Conn.id

/-- Scenario: connection 0 is a producer (the sender), 1 and 2 are
browser consumers, 3 is still unclassified. -/
def relayDemo : List Conn :=
  [⟨0, true, true, false⟩, ⟨1, true, false, true⟩,
   ⟨2, true, false, true⟩, ⟨3, true, false, false⟩]

/-- A message the command handler sends to some connection: the verbatim
command text, an `{type:"error", message}` notification, or an
`{type:"info", message}` notification. -/
inductive Outgoing where
  | cmdText (s : String)
  | errorNote (message : String)
  | infoNote (message : String)
  deriving Repr, DecidableEq

/-- The ESP32 clients eligible to receive a command:
`client.isESP32 && client.readyState === OPEN`. -/
def espTargets (conns : List Conn) : List Conn :=
  conns.filter fun c => c.isESP32 && c.readyOpen

/-- The text-command branch of the message handler: `flash_on`/`flash_off`
and `mic_on`/`mic_off` are forwarded to every eligible ESP32 client; when
none was found the sender gets an error notification, otherwise an info
notification.  The legacy `flash` token is forwarded as `flash_on` with
no reply.  Every other text message produces no sends. The returned list
is the transcript of `send` calls as (recipient, payload) pairs. -/
def handleTextMessage (sender : Nat) (cmd : String) (conns : List Conn) :
    List (Nat × Outgoing) :=
  if cmd = "flash_on" ∨ cmd = "flash_off" then
    ((espTargets conns).map fun c => (c.id, Outgoing.cmdText cmd)) ++
    (if (espTargets conns).isEmpty then
      [(sender,
        Outgoing.errorNote "No camera connected to receive flash command")]
    else [(sender, Outgoing.infoNote (cmd ++ " command sent to camera"))])
  else if cmd = "flash" then
    (espTargets conns).map fun c => (c.id, Outgoing.cmdText "flash_on")
  else if cmd = "mic_on" ∨ cmd = "mic_off" then
    ((espTargets conns).map fun c => (c.id, Outgoing.cmdText cmd)) ++
    (if (espTargets conns).isEmpty then
      [(sender,
        Outgoing.errorNote "No device connected to receive mic command")]
    else [(sender, Outgoing.infoNote (cmd ++ " command sent to device"))])
  else []

/-! ## Definitions: heartbeat liveness monitor -/

/-- Heartbeat view of a connection: its `isAlive` flag. -/
structure HConn where
  id : Nat
  isAlive : Bool
  deriving Repr, DecidableEq

/-- One `setInterval` cycle: every connection with `isAlive === false`
is terminated; every survivor has `isAlive` set to `false` and is sent a
ping. -/
def heartbeatTick (conns : List HConn) : List HConn :=
  (conns.filter fun c => c.isAlive).map fun c => { c with isAlive := false }

/-- The `pong` handler: sets `isAlive = true` on the ponging connection. -/
def applyPong (i : Nat) (conns : List HConn) : List HConn :=
  conns.map fun c => if c.id = i then { c with isAlive := true } else c

/-- The pongs received between two ticks, applied in order. -/
def applyPongs (pongs : List Nat) (conns : List HConn) : List HConn :=
  pongs.foldl (fun s i => applyPong i s) conns

/-! ## Helper lemmas -/

theorem decodeSample_valid (code : Nat) (s : DecoderState) :
    ValidState (decodeSample code s).2 := by
  simp only [ValidState, decodeSample]
  refine ⟨le_max_left _ _, max_le (by norm_num) (min_le_left _ _),
    le_max_left _ _, max_le (by norm_num) (min_le_left _ _)⟩

theorem decodeLoop_valid (bytes : List Nat) (s : DecoderState)
    (hs : ValidState s) : ValidState (decodeLoop s bytes).2 := by
  induction bytes generalizing s with
  | nil => exact hs
  | cons b rest ih => exact ih _ (decodeSample_valid _ _)

theorem decodeLoop_length (bytes : List Nat) (s : DecoderState) :
    (decodeLoop s bytes).1.length = 2 * bytes.length := by
  induction bytes generalizing s with
  | nil => rfl
  | cons b rest ih =>
    simp only [decodeLoop, List.length_cons, ih]
    ring

theorem heartbeatTick_isAlive (conns : List HConn) :
    ∀ c ∈ heartbeatTick conns, c.isAlive = false := by
  intro c hc
  simp only [heartbeatTick, List.mem_map, List.mem_filter] at hc
  obtain ⟨a, _, rfl⟩ := hc
  rfl

theorem applyPongs_preserve (pongs : List Nat) (i : Nat) (hp : i ∉ pongs)
    (s : List HConn) (h : ∀ c ∈ s, c.id = i → c.isAlive = false) :
    ∀ c ∈ applyPongs pongs s, c.id = i → c.isAlive = false := by
  induction pongs generalizing s with
  | nil => exact h
  | cons p rest ih =>
    have hrest : i ∉ rest := fun hm => hp (List.mem_cons_of_mem _ hm)
    have hpi : i ≠ p := fun he => hp (he ▸ List.mem_cons_self _ _)
    refine ih hrest (applyPong p s) ?_
    intro c hc hci
    simp only [applyPong, List.mem_map] at hc
    obtain ⟨a, ha, rfl⟩ := hc
    by_cases hap : a.id = p
    · exfalso
      apply hpi
      rw [if_pos hap] at hci
      exact (hci ▸ hap : i = p)
    · rw [if_neg hap] at hci ⊢
      exact h a ha hci

theorem jsSlice_from6_length (l : List Nat) (d : Int) (h6 : 6 ≤ l.length) :
    (jsSlice l 6 (6 + d)).length =
      if 0 ≤ d then min d.toNat (l.length - 6)
      else if d ≤ -7 then l.length - (-d).toNat
      else 0 := by
  simp only [jsSlice, clampIndex, List.length_take, List.length_drop]
  split_ifs <;> omega

/-! ## Claim theorems -/

/-- C1 (code evaluated at the failing input): the device encoder copies
samples in little-endian order while the browser parser reads them
big-endian, so the round trip byte-swaps every sample — encoding
sequence number 0 with the single sample 1 and parsing the result
succeeds but yields the sample 256, not 1. -/
theorem encode_parse_byte_swap :
    processArrayBuffer (encodePacket 0 [1]) = ParseOutcome.resolved 0 [256] ∧
    (256 : Int) ≠ 1 := by decide

/-- C2 (code evaluated at the failing input): `truncatedPacket` has a
valid header declaring 5 samples but only carries 2; the parser's
clamping branch assigns to the `const numSamples`, which throws, and the
catch resolves with an **empty** sample list — even though the clamped
count `floor((12-8)/2) = 2` and the two clamped samples `[1, 2]` were
available in the buffer. -/
theorem truncated_parse_resolved_empty :
    processArrayBuffer truncatedPacket = ParseOutcome.resolved 0 [] ∧
    (truncatedPacket.length - PACKET_HEADER_SIZE) / 2 = 2 ∧
    [getInt16BE truncatedPacket 8, getInt16BE truncatedPacket 10] =
      [1, 2] := by decide

/-- C3 counterexample: in `relayDemo` the sender (id 0) is the only
producer, connection 3 is still unclassified, yet the binary-frame
forwarding targets are exactly connections 1, 2 **and 3** — the
unclassified connection receives the frame, contradicting the claim
that it receives nothing. -/
theorem relay_unclassified_receives_frame :
    (relayDemo.filter fun c => c.isUnclassified).map Conn.id = [3] ∧
    (relayDemo.filter fun c => c.isProducer).map Conn.id = [0] ∧
    forwardBinaryTargets 0 relayDemo = [1, 2, 3] := by decide

/-- C3 (amended): an inbound binary frame is forwarded to exactly the
open connections other than the sender that are not marked as ESP32
producers — every registered consumer and every still-unclassified
connection — and no producer ever receives it. -/
theorem relay_routing (sender : Nat) (conns : List Conn)
    (hids : (conns.map Conn.id).Nodup) (c : Conn) (hc : c ∈ conns) :
    (c.id ∈ forwardBinaryTargets sender conns ↔
      (c.id ≠ sender ∧ c.readyOpen = true ∧ c.isESP32 = false)) ∧
    (c.isESP32 = true → c.id ∉ forwardBinaryTargets sender conns) := by
  have hchar : c.id ∈ forwardBinaryTargets sender conns ↔
      (c.id ≠ sender ∧ c.readyOpen = true ∧ c.isESP32 = false) := by
    constructor
    · intro hmem
      simp only [forwardBinaryTargets, List.mem_map, List.mem_filter]
        at hmem
      obtain ⟨a, ⟨ha, hpred⟩, hid⟩ := hmem
      have hac : a = c := List.inj_on_of_nodup_map hids ha hc hid
      subst hac
      simp only [Bool.and_eq_true, bne_iff_ne, ne_eq, Bool.not_eq_true']
        at hpred
      exact ⟨hpred.1.1, hpred.1.2, hpred.2⟩
    · rintro ⟨h1, h2, h3⟩
      simp only [forwardBinaryTargets, List.mem_map, List.mem_filter]
      refine ⟨c, ⟨hc, ?_⟩, rfl⟩
      simp [h1, h2, h3]
  refine ⟨hchar, fun hesp hmem => ?_⟩
  have hfalse := (hchar.mp hmem).2.2
  rw [hesp] at hfalse
  exact absurd hfalse (by decide)

theorem relay_routing_witness :
    ((Conn.mk 3 true false false).id ∈ forwardBinaryTargets 0 relayDemo ↔
      ((Conn.mk 3 true false false).id ≠ 0 ∧
        (Conn.mk 3 true false false).readyOpen = true ∧
        (Conn.mk 3 true false false).isESP32 = false)) ∧
    ((Conn.mk 3 true false false).isESP32 = true →
      (Conn.mk 3 true false false).id ∉ forwardBinaryTargets 0 relayDemo) :=
  relay_routing 0 relayDemo (by decide) (Conn.mk 3 true false false)
    (by decide)

/-- C4: ADPCM decoder state clamping invariant — from any state with
`stepIndex ∈ [0,88]` and `predictedValue ∈ [-32768,32767]`, decoding any
individual 4-bit code, and decoding the nibble sequence of any byte
stream (including all-0xFF or all-0x00 streams), leaves the state inside
those ranges. -/
theorem adpcm_state_clamping (s : DecoderState) (hs : ValidState s) :
    (∀ code : Nat, code < 16 → ValidState (decodeSample code s).2) ∧
    (∀ bytes : List Nat, ValidState (decodeLoop s bytes).2) :=
  ⟨fun code _ => decodeSample_valid code s,
   fun bytes => decodeLoop_valid bytes s hs⟩

theorem adpcm_state_clamping_witness :
    ValidState resetState ∧
      ValidState (decodeSample 15 resetState).2 ∧
      ValidState (decodeLoop resetState [255, 255, 0, 0]).2 :=
  ⟨by decide,
   (adpcm_state_clamping resetState (by decide)).1 15 (by decide),
   (adpcm_state_clamping resetState (by decide)).2 [255, 255, 0, 0]⟩

/-- C5: for every decoder state and input byte buffer, `decode` returns
exactly `2 * bytes.length` samples — each byte contributes its high
nibble first and then its low nibble, as fixed by `decodeLoop`. -/
theorem adpcm_decode_length (s : DecoderState) (bytes : List Nat) :
    (ADPCMDecoder.decode s bytes).1.length = 2 * bytes.length :=
  decodeLoop_length bytes resetState

/-- C6: decoder determinism and reset idempotence — `decode` calls
`reset()` first, so two invocations on any two decoder states (freshly
constructed, explicitly reset, or left over from a previous decode)
produce identical output; in particular decoding after `reset()` equals
decoding on a fresh decoder, and decoding immediately after any
previous decode gives the same result. -/
theorem adpcm_decode_deterministic (s1 s2 : DecoderState)
    (bytes prev : List Nat) :
    ADPCMDecoder.decode s1 bytes = ADPCMDecoder.decode s2 bytes ∧
    ADPCMDecoder.decode resetState bytes =
      ADPCMDecoder.decode (ADPCMDecoder.decode s1 prev).2 bytes :=
  ⟨rfl, rfl⟩

/-- C7: when no ESP32 producer is connected, a `mic_on`, `mic_off`,
`flash_on` or `flash_off` command produces exactly one send: an
`{type:"error", message}` notification back to the sender; no other
connection receives anything. -/
theorem no_producer_command_error (sender : Nat) (cmd : String)
    (conns : List Conn) (hnone : ∀ c ∈ conns, c.isESP32 = false) :
    ((cmd = "mic_on" ∨ cmd = "mic_off") →
      handleTextMessage sender cmd conns =
        [(sender,
          Outgoing.errorNote "No device connected to receive mic command")]) ∧
    ((cmd = "flash_on" ∨ cmd = "flash_off") →
      handleTextMessage sender cmd conns =
        [(sender,
          Outgoing.errorNote
            "No camera connected to receive flash command")]) := by
  have hesp : espTargets conns = [] := by
    rw [espTargets, List.filter_eq_nil_iff]
    intro a ha
    simp [hnone a ha]
  constructor
  · rintro (rfl | rfl) <;> simp [handleTextMessage, hesp]
  · rintro (rfl | rfl) <;> simp [handleTextMessage, hesp]

theorem no_producer_command_error_witness :
    handleTextMessage 7 "mic_on" [Conn.mk 1 true false true] =
      [(7, Outgoing.errorNote "No device connected to receive mic command")] :=
  (no_producer_command_error 7 "mic_on" [Conn.mk 1 true false true]
    (by decide)).1 (Or.inl rfl)

/-- C8: the checksum is advisory only — any buffer made of a valid
magic/type header, arbitrary sequence-number bytes, a declared sample
count in `(0, 8192]`, **arbitrary checksum bytes** `c0 c1`, and a
payload long enough for the declared count is resolved with the decoded
samples; no condition on the checksum appears. -/
theorem checksum_is_advisory (s0 s1 n0 n1 c0 c1 : Nat) (payload : List Nat)
    (hn : 0 < 256 * n0 + n1) (hn2 : 256 * n0 + n1 ≤ 8192)
    (hlen : (256 * n0 + n1) * 2 ≤ payload.length) :
    processArrayBuffer
        ([PACKET_HEADER_MAGIC, PACKET_TYPE_AUDIO, s0, s1, n0, n1, c0, c1] ++
          payload) =
      ParseOutcome.resolved (256 * s0 + s1)
        ((List.range (256 * n0 + n1)).map fun i =>
          getInt16BE
            ([PACKET_HEADER_MAGIC, PACKET_TYPE_AUDIO, s0, s1, n0, n1, c0,
              c1] ++ payload)
            (PACKET_HEADER_SIZE + 2 * i)) := by
  have hA : byteAt ([PACKET_HEADER_MAGIC, PACKET_TYPE_AUDIO, s0, s1, n0, n1,
      c0, c1] ++ payload) 0 = PACKET_HEADER_MAGIC := rfl
  have hB : byteAt ([PACKET_HEADER_MAGIC, PACKET_TYPE_AUDIO, s0, s1, n0, n1,
      c0, c1] ++ payload) 1 = PACKET_TYPE_AUDIO := rfl
  have h2 : getUint16BE ([PACKET_HEADER_MAGIC, PACKET_TYPE_AUDIO, s0, s1, n0,
      n1, c0, c1] ++ payload) 2 = 256 * s0 + s1 := rfl
  have h4 : getUint16BE ([PACKET_HEADER_MAGIC, PACKET_TYPE_AUDIO, s0, s1, n0,
      n1, c0, c1] ++ payload) 4 = 256 * n0 + n1 := rfl
  have hlen8 : ([PACKET_HEADER_MAGIC, PACKET_TYPE_AUDIO, s0, s1, n0, n1, c0,
      c1] ++ payload).length = 8 + payload.length := by
    simp
    omega
  simp only [processArrayBuffer, hA, hB, h2, h4, hlen8, PACKET_HEADER_SIZE]
  rw [if_neg (by omega), if_neg (by simp), if_neg (by omega),
    if_neg (by omega)]

theorem checksum_is_advisory_witness :
    processArrayBuffer
        ([PACKET_HEADER_MAGIC, PACKET_TYPE_AUDIO, 0, 5, 0, 3, 9, 9] ++
          [0, 100, 255, 56, 1, 44]) =
      ParseOutcome.resolved 5 [100, -200, 300] := by
  have h := checksum_is_advisory 0 5 0 3 9 9 [0, 100, 255, 56, 1, 44]
    (by norm_num) (by norm_num) (by norm_num)
  rw [h]
  decide

/-- C9: liveness mark-and-sweep — after a heartbeat tick every surviving
connection is marked not-alive; if none of the pongs received before the
next tick comes from connection `i`, then `i` is terminated at that next
tick: a single missed pong cycle is fatal, with no grace retries. -/
theorem missed_pong_terminated (conns : List HConn) (i : Nat)
    (pongs : List Nat) (hp : i ∉ pongs) :
    i ∉ (heartbeatTick (applyPongs pongs (heartbeatTick conns))).map
      HConn.id := by
  intro hmem
  simp only [List.mem_map] at hmem
  obtain ⟨b, hb, hbid⟩ := hmem
  simp only [heartbeatTick, List.mem_map, List.mem_filter] at hb
  obtain ⟨a, ⟨ha, halive⟩, hab⟩ := hb
  have haid : a.id = i := by rw [← hab] at hbid; exact hbid
  have hdead := applyPongs_preserve pongs i hp (heartbeatTick conns)
    (fun c hc _ => heartbeatTick_isAlive conns c hc) a ha haid
  rw [hdead] at halive
  exact absurd halive (by decide)

theorem missed_pong_terminated_witness :
    1 ∉ (heartbeatTick (applyPongs [2]
      (heartbeatTick [HConn.mk 1 true, HConn.mk 2 true]))).map HConn.id :=
  missed_pong_terminated [HConn.mk 1 true, HConn.mk 2 true] 1 [2] (by decide)

/-- C10 counterexample: `oversizedPacket` declares the unsigned
little-endian size `2^31`; the claim's formula `min(declaredSize,
bufferLength - 6)` gives 1, but JavaScript's bitwise ops make the size
the negative int32 `-2^31` and the slice comes back empty. -/
theorem processPacket_highbit_size_empty :
    processPacket oversizedPacket =
      PacketResult.ok 1 0 (-2147483648) [] ∧
    min (2147483648 : Nat) (oversizedPacket.length - 6) = 1 := by decide

/-- C10 (amended): `processPacket` throws on buffers shorter than 6
bytes and on type byte ≠ 1; otherwise it reads the declared size as a
**signed** little-endian 32-bit value (JavaScript bitwise ops) and
returns `data.slice(6, 6 + dataSize)`, whose length is
`min(declaredSize, bufferLength - 6)` when the declared size is
non-negative, `bufferLength - |declaredSize|` (clamped at 0) when it is
at most -7 because the negative slice end counts from the buffer end,
and 0 for declared sizes in [-6, -1]. -/
theorem processPacket_behavior (data : List Nat) :
    (data.length < 6 →
      processPacket data = PacketResult.error "Invalid packet size") ∧
    (6 ≤ data.length → byteAt data 0 ≠ 1 →
      processPacket data = PacketResult.error "Not an audio packet") ∧
    (6 ≤ data.length → byteAt data 0 = 1 →
      processPacket data = PacketResult.ok 1 (byteAt data 5)
        (declaredSize data) (jsSlice data 6 (6 + declaredSize data)) ∧
      (jsSlice data 6 (6 + declaredSize data)).length =
        if 0 ≤ declaredSize data then
          min (declaredSize data).toNat (data.length - 6)
        else if declaredSize data ≤ -7 then
          data.length - (-(declaredSize data)).toNat
        else 0) := by
  refine ⟨fun h => ?_, fun h6 h0 => ?_, fun h6 h0 => ⟨?_, ?_⟩⟩
  · rw [processPacket, if_pos h]
  · rw [processPacket, if_neg (by omega), if_pos h0]
  · rw [processPacket, if_neg (by omega), if_neg (by simp [h0]), h0]
  · exact jsSlice_from6_length data (declaredSize data) h6

theorem processPacket_behavior_witness :
    processPacket [1, 2, 0, 0, 0, 0, 9, 9] =
      PacketResult.ok 1 0 2 [9, 9] := by
  have h := ((processPacket_behavior [1, 2, 0, 0, 0, 0, 9, 9]).2.2
    (by norm_num) (by decide)).1
  rw [h]
  decide

end IOTAudio
